import Mathlib

/-!
Shallow embedding of the retrying remote-lookup cores of
`url_checker.py` (`check_url`) and `zipcode_finder.py` (`lookup_postcode`,
and the worksheet zip-fill loop), together with proofs about them.

The Python transports (`session.get`, `geolocator.geocode`) are modelled as
oracles indexed by the 1-based attempt number; an attempt either completes
with a value or raises an exception (`PyExn`).  Randomized sleep durations
(`random.uniform`) are modelled by oracle functions into the rationals; the
range constraint of `random.uniform(a, b)` appears as a hypothesis where it
matters.  Each lookup run is summarised by a trace recording the returned
value (an `Except`, so that an uncaught exception is visible), the number
of transport calls made, and the list of slept backoff durations in order.
-/

set_option autoImplicit false

namespace Scripts

/-- Exceptions a transport call can raise.  The first three are the types
named in `zipcode_finder.py`'s `except` clause; `otherError` stands for any
other Python exception. -/
inductive PyExn where
  | geocoderTimedOut
  | geocoderUnavailable
  | requestException
  | otherError (msg : String)
  deriving DecidableEq, Repr

/-- An HTTP response as `check_url` reads it: `r.status_code` and `r.text`. -/
structure HttpResponse where
  status_code : Nat
  text : String
  deriving DecidableEq, Repr

/-- Does `hay` start with `needle`? (helper for the substring test). -/
def listStartsWith : List Char → List Char → Bool
  | [], _ => true
  | _ :: _, [] => false
  | a :: as, b :: bs => a == b && listStartsWith as bs

/-- Does the second list contain the first as a contiguous run?
Models Python's `in` on strings. -/
def listHasSub (needle : List Char) : List Char → Bool
  | [] => listStartsWith needle []
  | c :: rest => listStartsWith needle (c :: rest) || listHasSub needle rest

/-- Models `'captcha' in s.lower()` from `check_url`: Python `str.lower()`
is per-character lowering, then `in` is the substring test. -/
def hasCaptcha (s : String) : Bool :=
  listHasSub "captcha".data (s.data.map Char.toLower)

/-- The `RESPONSE_CODES` table of `url_checker.py`, `none` for unknown codes. -/
def RESPONSE_CODES (code : Nat) : Option String :=
  match code with
  | 100 => some "Continue"
  | 101 => some "Switching Protocols"
  | 200 => some "OK"
  | 201 => some "Created"
  | 202 => some "Accepted"
  | 204 => some "No Content"
  | 301 => some "Moved Permanently"
  | 302 => some "Found"
  | 304 => some "Not Modified"
  | 400 => some "Bad Request"
  | 401 => some "Unauthorized"
  | 403 => some "Forbidden"
  | 404 => some "Not Found"
  | 500 => some "Internal Server Error"
  | 502 => some "Bad Gateway"
  | 503 => some "Service Unavailable"
  | 504 => some "Gateway Timeout"
  | _ => none

/-- The retry guard of `check_url`:
`code in (429, 503) or 'captcha' in (r.text or '').lower()`. -/
def isRetrySignal (r : HttpResponse) : Bool :=
  (r.status_code == 429 || r.status_code == 503) || hasCaptcha r.text

/-- Since `check_url` wraps its whole body in `except Exception`, every
modelled exception is caught. -/
def isCaughtByCheck (_ : PyExn) : Bool :=
  true

/-- The exception clause of `lookup_postcode`: it catches exactly
`(GeocoderTimedOut, GeocoderUnavailable, RequestException)`. -/
def isCaughtByLookup : PyExn → Bool
  | .geocoderTimedOut => true
  | .geocoderUnavailable => true
  | .requestException => true
  | .otherError _ => false

/-- Trace of one `check_url` run: the returned value (`Except` so that an
uncaught exception would be visible), the number of `session.get` calls,
and the slept durations in order. -/
structure CheckRun where
  result : Except PyExn (Option Nat × String)
  calls : Nat
  sleeps : List ℚ
  deriving Repr

/-- The loop body of `check_url`, from attempt number `a` with `fuel`
attempts remaining.  `t` is the transport (`session.get`); `rS` gives the
value drawn by `random.uniform(5, 10)` on a soft-failure retry at attempt
`a`, and `rE` the value drawn by `random.uniform(2, 4)` on an exception
retry. -/
def checkUrlGo (t : Nat → Except PyExn HttpResponse) (rS rE : Nat → ℚ) :
    Nat → Nat → CheckRun
  | _, 0 => ⟨.ok (none, "Failed after retries"), 0, []⟩
  | a, fuel + 1 =>
    match t a with
    | .ok r =>
      if isRetrySignal r then
        let rest := checkUrlGo t rS rE (a + 1) fuel
        ⟨rest.result, rest.calls + 1, rS a :: rest.sleeps⟩
      else
        ⟨.ok (some r.status_code, (RESPONSE_CODES r.status_code).getD "Unknown"), 1, []⟩
    | .error e =>
      if isCaughtByCheck e then
        let rest := checkUrlGo t rS rE (a + 1) fuel
        ⟨rest.result, rest.calls + 1, rE a :: rest.sleeps⟩
      else
        ⟨.error e, 1, []⟩

/-- Models `check_url(session, url, max_retries)`: attempts run 1, 2, …, up to
`max_retries`; falling off the loop returns `(None, "Failed after retries")`. -/
def check_url (t : Nat → Except PyExn HttpResponse) (rS rE : Nat → ℚ)
    (max_retries : Nat) : CheckRun :=
  checkUrlGo t rS rE 1 max_retries

/-- Is attempt `i` of transport `t` a retryable one for `check_url`
(a response carrying the retry signal, or any raised exception)? -/
def retryAttempt (t : Nat → Except PyExn HttpResponse) (i : Nat) : Bool :=
  match t i with
  | .ok r => isRetrySignal r
  | .error e => isCaughtByCheck e

/-- A geocoder hit as `lookup_postcode` reads it: `rawAddress` models
`loc.raw.get('address')` as an association list of string keys. -/
structure GeoLocation where
  rawAddress : Option (List (String × String))
  deriving DecidableEq, Repr

/-- Python dict membership / indexing on the modelled `address` dict. -/
def dictGet (d : List (String × String)) (k : String) : Option String :=
  (d.find? (fun p => p.1 == k)).map (fun p => p.2)

/-- Trace of one `lookup_postcode` run: the returned value (`Except` so
that an uncaught exception is visible), the number of `geocode` calls, and
the slept backoff durations in order. -/
structure LookupRun where
  result : Except PyExn String
  calls : Nat
  sleeps : List Nat
  deriving Repr

/-- The loop body of `lookup_postcode`, from attempt number `a` with `fuel`
attempts remaining.  `g` is the geocoder: `g i` is either a result
(`none` when Nominatim found nothing) or a raised exception. -/
def lookupGo (g : Nat → Except PyExn (Option GeoLocation)) :
    Nat → Nat → LookupRun
  | _, 0 => ⟨.ok "", 0, []⟩
  | a, fuel + 1 =>
    match g a with
    | .ok loc =>
      match loc with
      | some l =>
        match dictGet (l.rawAddress.getD []) "postcode" with
        | some pc => ⟨.ok pc, 1, []⟩
        | none => ⟨.ok "", 1, []⟩
      | none => ⟨.ok "", 1, []⟩
    | .error e =>
      if isCaughtByLookup e then
        let rest := lookupGo g (a + 1) fuel
        ⟨rest.result, rest.calls + 1, min 20 (2 ^ a) :: rest.sleeps⟩
      else
        ⟨.error e, 1, []⟩

/-- Models `lookup_postcode(address, retries)`: attempts run 1, 2, …, up to
`retries`; falling off the loop returns `""`. -/
def lookup_postcode (g : Nat → Except PyExn (Option GeoLocation))
    (retries : Nat) : LookupRun :=
  lookupGo g 1 retries

/-- Is attempt `i` of geocoder `g` retryable for `lookup_postcode`
(one of the three caught exception types)?  A completed geocode, with or
without data, is never retried. -/
def retryGeo (g : Nat → Except PyExn (Option GeoLocation)) (i : Nat) : Bool :=
  match g i with
  | .ok _ => false
  | .error e => isCaughtByLookup e

/-- A worksheet cell value as the zip-fill loop reads it. -/
inductive CellValue where
  | vNone
  | vStr (s : String)
  | vInt (n : Int)
  deriving DecidableEq, Repr

/-- Python truthiness of a cell value (`not zip_cell.value`). -/
def truthy : CellValue → Bool
  | .vNone => false
  | .vStr s => !(s == "")
  | .vInt n => !(n == 0)

/-- Python `str(value)` on a cell value. -/
def pyStr : CellValue → String
  | .vNone => "None"
  | .vStr s => s
  | .vInt n => toString n

/-- Python's default whitespace set for `str.strip()`. -/
def isSpaceChar (c : Char) : Bool :=
  c == ' ' || c == '\t' || c == '\n' || c == '\r' || c == '\x0b' || c == '\x0c'

/-- Python `str.strip()`: the characters left after dropping leading and
trailing whitespace. -/
def pyStrip (s : String) : List Char :=
  ((s.data.dropWhile isSpaceChar).reverse.dropWhile isSpaceChar).reverse

/-- The fill-loop guard:
`not zip_cell.value or str(zip_cell.value).strip() == ""`. -/
def isBlankZip (v : CellValue) : Bool :=
  !truthy v || pyStrip (pyStr v) == []

/-- One worksheet row as the fill loop reads it: its zip cell and its
full-address cell. -/
structure SheetRowIn where
  zipVal : CellValue
  addrVal : CellValue
  deriving DecidableEq, Repr

/-- The effect of the fill loop on one row: the zip cell's value after the
loop, whether the loop set the yellow fill on it, and whether a geocode
lookup was performed for the row. -/
structure SheetRowOut where
  zipVal : CellValue
  highlighted : Bool
  lookedUp : Bool
  deriving DecidableEq, Repr

/-- The body of the row loop of `zipcode_finder.py` for one row.  `lk`
models the call `lookup_postcode(address)` (its returned string); the
argument passed is `ws.cell(row, col_address).value or ""`. -/
def fillRow (lk : CellValue → String) (r : SheetRowIn) : SheetRowOut :=
  if isBlankZip r.zipVal then
    let addr := if truthy r.addrVal then r.addrVal else .vStr ""
    let pc := lk addr
    if pc == "" then ⟨r.zipVal, false, true⟩
    else ⟨.vStr pc, true, true⟩
  else
    ⟨r.zipVal, false, false⟩

/-- The whole fill pass: `for row in range(2, ws.max_row + 1): …`
applied to the list of data rows. -/
def fillLoop (lk : CellValue → String) (rows : List SheetRowIn) :
    List SheetRowOut :=
  rows.map (fillRow lk)

end Scripts
namespace Scripts

theorem checkUrlGo_zero (t : Nat → Except PyExn HttpResponse) (rS rE : Nat → ℚ) (a : Nat) :
    checkUrlGo t rS rE a 0 = ⟨.ok (none, "Failed after retries"), 0, []⟩ := rfl

theorem checkUrlGo_succ (t : Nat → Except PyExn HttpResponse) (rS rE : Nat → ℚ) (a fuel : Nat) :
    checkUrlGo t rS rE a (fuel + 1) =
      match t a with
      | .ok r =>
        if isRetrySignal r then
          ⟨(checkUrlGo t rS rE (a + 1) fuel).result, (checkUrlGo t rS rE (a + 1) fuel).calls + 1,
            rS a :: (checkUrlGo t rS rE (a + 1) fuel).sleeps⟩
        else ⟨.ok (some r.status_code, (RESPONSE_CODES r.status_code).getD "Unknown"), 1, []⟩
      | .error e =>
        if isCaughtByCheck e then
          ⟨(checkUrlGo t rS rE (a + 1) fuel).result, (checkUrlGo t rS rE (a + 1) fuel).calls + 1,
            rE a :: (checkUrlGo t rS rE (a + 1) fuel).sleeps⟩
        else ⟨.error e, 1, []⟩ := rfl

theorem checkUrlGo_retry_step (t : Nat → Except PyExn HttpResponse) (rS rE : Nat → ℚ)
    (a fuel : Nat) (h : retryAttempt t a = true) :
    (checkUrlGo t rS rE a (fuel + 1)).result = (checkUrlGo t rS rE (a + 1) fuel).result ∧
    (checkUrlGo t rS rE a (fuel + 1)).calls = (checkUrlGo t rS rE (a + 1) fuel).calls + 1 ∧
    (checkUrlGo t rS rE a (fuel + 1)).sleeps.length =
      (checkUrlGo t rS rE (a + 1) fuel).sleeps.length + 1 := by
  rw [checkUrlGo_succ]
  cases ht : t a with
  | ok r =>
    simp only [retryAttempt, ht] at h
    simp [h]
  | error e =>
    simp [isCaughtByCheck]

theorem checkUrlGo_allRetry (t : Nat → Except PyExn HttpResponse) (rS rE : Nat → ℚ)
    (h : ∀ i, retryAttempt t i = true) (a fuel : Nat) :
    (checkUrlGo t rS rE a fuel).result = .ok (none, "Failed after retries") ∧
    (checkUrlGo t rS rE a fuel).calls = fuel ∧
    (checkUrlGo t rS rE a fuel).sleeps.length = fuel := by
  induction fuel generalizing a with
  | zero => simp [checkUrlGo_zero]
  | succ fuel ih =>
    obtain ⟨h1, h2, h3⟩ := checkUrlGo_retry_step t rS rE a fuel (h a)
    obtain ⟨g1, g2, g3⟩ := ih (a + 1)
    exact ⟨h1.trans g1, by omega, by omega⟩

end Scripts
namespace Scripts

theorem checkUrlGo_success_step (t : Nat → Except PyExn HttpResponse) (rS rE : Nat → ℚ)
    (a fuel : Nat) (r : HttpResponse) (ht : t a = .ok r) (hr : isRetrySignal r = false) :
    checkUrlGo t rS rE a (fuel + 1) =
      ⟨.ok (some r.status_code, (RESPONSE_CODES r.status_code).getD "Unknown"), 1, []⟩ := by
  rw [checkUrlGo_succ, ht]
  simp [hr]

theorem checkUrlGo_success_after (t : Nat → Except PyExn HttpResponse) (rS rE : Nat → ℚ)
    (k : Nat) :
    ∀ a fuel, k < fuel → (∀ i, i < k → retryAttempt t (a + i) = true) →
    ∀ r, t (a + k) = .ok r → isRetrySignal r = false →
    (checkUrlGo t rS rE a fuel).result =
      .ok (some r.status_code, (RESPONSE_CODES r.status_code).getD "Unknown") ∧
    (checkUrlGo t rS rE a fuel).calls = k + 1 ∧
    (checkUrlGo t rS rE a fuel).sleeps.length = k := by
  induction k with
  | zero =>
    intro a fuel hk hall r ht hr
    obtain ⟨fuel', rfl⟩ : ∃ m, fuel = m + 1 := ⟨fuel - 1, by omega⟩
    rw [checkUrlGo_success_step t rS rE a fuel' r (by simpa using ht) hr]
    simp
  | succ k ih =>
    intro a fuel hk hall r ht hr
    obtain ⟨fuel', rfl⟩ : ∃ m, fuel = m + 1 := ⟨fuel - 1, by omega⟩
    obtain ⟨h1, h2, h3⟩ := checkUrlGo_retry_step t rS rE a fuel' (by simpa using hall 0 (by omega))
    obtain ⟨g1, g2, g3⟩ := ih (a + 1) fuel' (by omega)
      (fun i hi => by
        have := hall (i + 1) (by omega)
        simpa [Nat.add_assoc, Nat.add_comm 1 i] using this)
      r (by simpa [Nat.add_assoc, Nat.add_comm 1 k] using ht) hr
    exact ⟨h1.trans g1, by omega, by omega⟩

theorem checkUrlGo_result_ok (t : Nat → Except PyExn HttpResponse) (rS rE : Nat → ℚ)
    (fuel : Nat) : ∀ a, ∃ v, (checkUrlGo t rS rE a fuel).result = .ok v := by
  induction fuel with
  | zero => intro a; exact ⟨(none, "Failed after retries"), rfl⟩
  | succ fuel ih =>
    intro a
    rw [checkUrlGo_succ]
    cases ht : t a with
    | ok r =>
      by_cases hr : isRetrySignal r
      · simpa [hr] using ih (a + 1)
      · exact ⟨(some r.status_code, (RESPONSE_CODES r.status_code).getD "Unknown"), by simp [hr]⟩
    | error e =>
      simpa [isCaughtByCheck] using ih (a + 1)

theorem checkUrlGo_success_origin (t : Nat → Except PyExn HttpResponse) (rS rE : Nat → ℚ)
    (fuel : Nat) :
    ∀ a c s, (checkUrlGo t rS rE a fuel).result = .ok (some c, s) →
    ∃ j r, j < fuel ∧ t (a + j) = .ok r ∧ r.status_code = c ∧ isRetrySignal r = false := by
  induction fuel with
  | zero => intro a c s h; simp [checkUrlGo_zero] at h
  | succ fuel ih =>
    intro a c s h
    rw [checkUrlGo_succ] at h
    cases ht : t a with
    | ok r =>
      rw [ht] at h
      by_cases hr : isRetrySignal r
      · simp only [hr, if_true] at h
        obtain ⟨j, r', hj, hgt, hc, hrs⟩ := ih (a + 1) c s h
        exact ⟨j + 1, r', by omega, by simpa [Nat.add_assoc, Nat.add_comm 1 j] using hgt, hc, hrs⟩
      · dsimp only at h
        rw [if_neg hr] at h
        have hcs := Except.ok.inj h
        have hc : some r.status_code = some c := congrArg Prod.fst hcs
        exact ⟨0, r, by omega, by simpa using ht, by simpa using hc, by simpa using hr⟩
    | error e =>
      rw [ht] at h
      simp only [isCaughtByCheck, if_true] at h
      obtain ⟨j, r', hj, hgt, hc, hrs⟩ := ih (a + 1) c s h
      exact ⟨j + 1, r', by omega, by simpa [Nat.add_assoc, Nat.add_comm 1 j] using hgt, hc, hrs⟩

theorem checkUrlGo_sleeps_mem (t : Nat → Except PyExn HttpResponse) (rS rE : Nat → ℚ)
    (fuel : Nat) :
    ∀ a x, x ∈ (checkUrlGo t rS rE a fuel).sleeps → (∃ i, x = rS i) ∨ (∃ i, x = rE i) := by
  induction fuel with
  | zero => intro a x hx; simp [checkUrlGo_zero] at hx
  | succ fuel ih =>
    intro a x hx
    rw [checkUrlGo_succ] at hx
    cases ht : t a with
    | ok r =>
      rw [ht] at hx
      by_cases hr : isRetrySignal r
      · simp only [hr, if_true, List.mem_cons] at hx
        rcases hx with rfl | hx
        · exact Or.inl ⟨a, rfl⟩
        · exact ih (a + 1) x hx
      · simp [hr] at hx
    | error e =>
      rw [ht] at hx
      simp only [isCaughtByCheck, if_true, List.mem_cons] at hx
      rcases hx with rfl | hx
      · exact Or.inr ⟨a, rfl⟩
      · exact ih (a + 1) x hx

end Scripts
namespace Scripts

theorem lookupGo_zero (g : Nat → Except PyExn (Option GeoLocation)) (a : Nat) :
    lookupGo g a 0 = ⟨.ok "", 0, []⟩ := rfl

theorem lookupGo_succ (g : Nat → Except PyExn (Option GeoLocation)) (a fuel : Nat) :
    lookupGo g a (fuel + 1) =
      match g a with
      | .ok loc =>
        match loc with
        | some l =>
          match dictGet (l.rawAddress.getD []) "postcode" with
          | some pc => ⟨.ok pc, 1, []⟩
          | none => ⟨.ok "", 1, []⟩
        | none => ⟨.ok "", 1, []⟩
      | .error e =>
        if isCaughtByLookup e then
          ⟨(lookupGo g (a + 1) fuel).result, (lookupGo g (a + 1) fuel).calls + 1,
            min 20 (2 ^ a) :: (lookupGo g (a + 1) fuel).sleeps⟩
        else ⟨.error e, 1, []⟩ := rfl

theorem lookupGo_retry_step (g : Nat → Except PyExn (Option GeoLocation))
    (a fuel : Nat) (h : retryGeo g a = true) :
    lookupGo g a (fuel + 1) =
      ⟨(lookupGo g (a + 1) fuel).result, (lookupGo g (a + 1) fuel).calls + 1,
        min 20 (2 ^ a) :: (lookupGo g (a + 1) fuel).sleeps⟩ := by
  rw [lookupGo_succ]
  cases hg : g a with
  | ok loc => simp [retryGeo, hg] at h
  | error e =>
    simp only [retryGeo, hg] at h
    simp [h]

theorem lookupGo_allRetry (g : Nat → Except PyExn (Option GeoLocation))
    (h : ∀ i, retryGeo g i = true) (fuel : Nat) :
    ∀ a, (lookupGo g a fuel).result = .ok "" ∧
      (lookupGo g a fuel).calls = fuel ∧
      (lookupGo g a fuel).sleeps.length = fuel := by
  induction fuel with
  | zero => intro a; simp [lookupGo_zero]
  | succ fuel ih =>
    intro a
    rw [lookupGo_retry_step g a fuel (h a)]
    obtain ⟨g1, g2, g3⟩ := ih (a + 1)
    exact ⟨g1, by simpa using g2, by simpa using g3⟩

/-- The value `lookup_postcode` returns when a geocode call completes:
the postcode when present, `""` otherwise. -/
def geocodeValue (loc : Option GeoLocation) : String :=
  match loc with
  | some l => (dictGet (l.rawAddress.getD []) "postcode").getD ""
  | none => ""

theorem lookupGo_terminal_step (g : Nat → Except PyExn (Option GeoLocation))
    (a fuel : Nat) (loc : Option GeoLocation) (hg : g a = .ok loc) :
    lookupGo g a (fuel + 1) = ⟨.ok (geocodeValue loc), 1, []⟩ := by
  cases loc with
  | some l =>
    rw [lookupGo_succ, hg]
    cases hpc : dictGet (l.rawAddress.getD []) "postcode" with
    | some pc => simp [geocodeValue, hpc]
    | none => simp [geocodeValue, hpc]
  | none =>
    rw [lookupGo_succ, hg]
    simp [geocodeValue]

theorem lookupGo_success_after (g : Nat → Except PyExn (Option GeoLocation)) (k : Nat) :
    ∀ a fuel, k < fuel → (∀ i, i < k → retryGeo g (a + i) = true) →
    ∀ l pc, g (a + k) = .ok (some l) →
    dictGet (l.rawAddress.getD []) "postcode" = some pc →
    (lookupGo g a fuel).result = .ok pc ∧
    (lookupGo g a fuel).calls = k + 1 ∧
    (lookupGo g a fuel).sleeps.length = k := by
  induction k with
  | zero =>
    intro a fuel hk hall l pc hg hpc
    obtain ⟨fuel', rfl⟩ : ∃ m, fuel = m + 1 := ⟨fuel - 1, by omega⟩
    rw [lookupGo_terminal_step g a fuel' (some l) (by simpa using hg)]
    simp [geocodeValue, hpc]
  | succ k ih =>
    intro a fuel hk hall l pc hg hpc
    obtain ⟨fuel', rfl⟩ : ∃ m, fuel = m + 1 := ⟨fuel - 1, by omega⟩
    rw [lookupGo_retry_step g a fuel' (by simpa using hall 0 (by omega))]
    obtain ⟨g1, g2, g3⟩ := ih (a + 1) fuel' (by omega)
      (fun i hi => by
        have := hall (i + 1) (by omega)
        simpa [Nat.add_assoc, Nat.add_comm 1 i] using this)
      l pc (by simpa [Nat.add_assoc, Nat.add_comm 1 k] using hg) hpc
    exact ⟨g1, by simpa using g2, by simpa using g3⟩

theorem lookupGo_sleeps_spec (g : Nat → Except PyExn (Option GeoLocation)) (fuel : Nat) :
    ∀ a, ∃ j, (lookupGo g a fuel).sleeps =
      (List.range j).map (fun i => min 20 (2 ^ (a + i))) := by
  induction fuel with
  | zero => intro a; exact ⟨0, by simp [lookupGo_zero]⟩
  | succ fuel ih =>
    intro a
    rw [lookupGo_succ]
    cases hg : g a with
    | ok loc =>
      cases loc with
      | some l =>
        cases hpc : dictGet (l.rawAddress.getD []) "postcode" with
        | some pc => exact ⟨0, by simp [hpc]⟩
        | none => exact ⟨0, by simp [hpc]⟩
      | none => exact ⟨0, by simp⟩
    | error e =>
      by_cases hc : isCaughtByLookup e
      · obtain ⟨j, hj⟩ := ih (a + 1)
        refine ⟨j + 1, ?_⟩
        simp only [hc, if_true]
        rw [List.range_succ_eq_map]
        simp only [List.map_cons, List.map_map]
        congr 1
        rw [hj]
        apply List.map_congr_left
        intro i hi
        have hx : a + 1 + i = a + (i + 1) := by omega
        simp [Function.comp, hx]
      · exact ⟨0, by simp [hc]⟩

theorem lookupGo_ok_of_caught (g : Nat → Except PyExn (Option GeoLocation))
    (h : ∀ i e, g i = .error e → isCaughtByLookup e = true) (fuel : Nat) :
    ∀ a, ∃ s, (lookupGo g a fuel).result = .ok s := by
  induction fuel with
  | zero => intro a; exact ⟨"", rfl⟩
  | succ fuel ih =>
    intro a
    cases hg : g a with
    | ok loc =>
      rw [lookupGo_terminal_step g a fuel loc hg]
      exact ⟨_, rfl⟩
    | error e =>
      rw [lookupGo_retry_step g a fuel (by simp [retryGeo, hg, h a e hg])]
      exact ih (a + 1)

end Scripts
namespace Scripts

/-- C3: for every identifier, a transport that returns a retryable signal
on every call makes exactly max_attempts transport calls — never more —
and then the lookup returns its Failed outcome
(`(None, "Failed after retries")` for `check_url`, the exhaustion return
for `lookup_postcode`). -/
theorem allRetry_exhausts_exactly_max_attempts :
    (∀ (t : Nat → Except PyExn HttpResponse) (rS rE : Nat → ℚ) (n : Nat),
      (∀ i, retryAttempt t i = true) →
      (check_url t rS rE n).result = Except.ok (none, "Failed after retries") ∧
      (check_url t rS rE n).calls = n) ∧
    (∀ (g : Nat → Except PyExn (Option GeoLocation)) (n : Nat),
      (∀ i, retryGeo g i = true) →
      (lookup_postcode g n).result = Except.ok "" ∧
      (lookup_postcode g n).calls = n) := by
  constructor
  · intro t rS rE n h
    obtain ⟨h1, h2, h3⟩ := checkUrlGo_allRetry t rS rE h 1 n
    exact ⟨h1, h2⟩
  · intro g n h
    obtain ⟨h1, h2, h3⟩ := lookupGo_allRetry g h n 1
    exact ⟨h1, h2⟩

/-- Witness for C3 at concrete inputs: a transport always answering 429
and a geocoder always timing out, with max_attempts = 3. -/
theorem allRetry_exhausts_exactly_max_attempts_witness :
    ((check_url (fun _ => Except.ok ⟨429, ""⟩) (fun _ => 7) (fun _ => 3) 3).result =
        Except.ok (none, "Failed after retries") ∧
      (check_url (fun _ => Except.ok ⟨429, ""⟩) (fun _ => 7) (fun _ => 3) 3).calls = 3) ∧
    ((lookup_postcode (fun _ => Except.error PyExn.geocoderTimedOut) 3).result = Except.ok "" ∧
      (lookup_postcode (fun _ => Except.error PyExn.geocoderTimedOut) 3).calls = 3) :=
  ⟨allRetry_exhausts_exactly_max_attempts.1 _ _ _ 3 (fun _ => rfl),
   allRetry_exhausts_exactly_max_attempts.2 _ 3 (fun _ => rfl)⟩

/-- C10: a retryable condition on the final permitted attempt still incurs
its backoff sleep before the Failed outcome: with every attempt retryable
the number of sleeps equals max_attempts, not max_attempts - 1. -/
theorem sleep_after_final_retryable_attempt :
    (∀ (t : Nat → Except PyExn HttpResponse) (rS rE : Nat → ℚ) (n : Nat),
      (∀ i, retryAttempt t i = true) → (check_url t rS rE n).sleeps.length = n) ∧
    (∀ (g : Nat → Except PyExn (Option GeoLocation)) (n : Nat),
      (∀ i, retryGeo g i = true) → (lookup_postcode g n).sleeps.length = n) := by
  constructor
  · intro t rS rE n h
    exact (checkUrlGo_allRetry t rS rE h 1 n).2.2
  · intro g n h
    exact (lookupGo_allRetry g h n 1).2.2

/-- Witness for C10: with 3 permitted attempts and every attempt
retryable, 3 sleeps happen (not 2). -/
theorem sleep_after_final_retryable_attempt_witness :
    (check_url (fun _ => Except.error (PyExn.otherError "conn refused"))
        (fun _ => 7) (fun _ => 3) 3).sleeps.length = 3 ∧
    (lookup_postcode (fun _ => Except.error PyExn.requestException) 3).sleeps.length = 3 :=
  ⟨sleep_after_final_retryable_attempt.1 _ _ _ 3 (fun _ => rfl),
   sleep_after_final_retryable_attempt.2 _ 3 (fun _ => rfl)⟩

/-- C7: when a geocode call completes but yields no extractable data
(no location, or a location whose address dict has no postcode key),
`lookup_postcode` returns the Empty value `""` at once: one transport
call, no sleep, no retry consumed. -/
theorem empty_returned_without_retry :
    ∀ (g : Nat → Except PyExn (Option GeoLocation)) (n : Nat), 0 < n →
    (g 1 = Except.ok none ∨
      ∃ l, g 1 = Except.ok (some l) ∧ dictGet (l.rawAddress.getD []) "postcode" = none) →
    lookup_postcode g n = ⟨Except.ok "", 1, []⟩ := by
  intro g n hn hcase
  obtain ⟨m, rfl⟩ : ∃ m, n = m + 1 := ⟨n - 1, by omega⟩
  rcases hcase with hg | ⟨l, hg, hpc⟩
  · rw [show lookup_postcode g (m + 1) = lookupGo g 1 (m + 1) from rfl,
      lookupGo_terminal_step g 1 m none hg]
    rfl
  · rw [show lookup_postcode g (m + 1) = lookupGo g 1 (m + 1) from rfl,
      lookupGo_terminal_step g 1 m (some l) hg]
    simp [geocodeValue, hpc]

/-- Witness for C7: a geocoder that resolves to an address without a
postcode field yields Empty immediately, with one call and no sleep. -/
theorem empty_returned_without_retry_witness :
    lookup_postcode (fun _ => Except.ok (some ⟨some [("city", "Springfield")]⟩)) 3 =
      ⟨Except.ok "", 1, []⟩ :=
  empty_returned_without_retry _ 3 (by decide)
    (Or.inr ⟨⟨some [("city", "Springfield")]⟩, rfl, by decide⟩)

end Scripts
namespace Scripts

/-- C4: a transport that is retryable on exactly the first k attempts
(k < max_attempts) and completes non-retryably on attempt k + 1 yields
Success after exactly k retries: k + 1 transport calls and k backoff
sleeps, and in the k = 0 case Success on the first attempt with no sleep
invoked at all. -/
theorem success_after_exactly_k_retries :
    ∀ (k n : Nat), k < n →
    (∀ (t : Nat → Except PyExn HttpResponse) (rS rE : Nat → ℚ),
      (∀ i, i < k → retryAttempt t (1 + i) = true) →
      ∀ r, t (1 + k) = Except.ok r → isRetrySignal r = false →
      (check_url t rS rE n).result =
        Except.ok (some r.status_code, (RESPONSE_CODES r.status_code).getD "Unknown") ∧
      (check_url t rS rE n).calls = k + 1 ∧
      (check_url t rS rE n).sleeps.length = k ∧
      (k = 0 → (check_url t rS rE n).sleeps = [])) ∧
    (∀ (g : Nat → Except PyExn (Option GeoLocation)),
      (∀ i, i < k → retryGeo g (1 + i) = true) →
      ∀ l pc, g (1 + k) = Except.ok (some l) →
      dictGet (l.rawAddress.getD []) "postcode" = some pc →
      (lookup_postcode g n).result = Except.ok pc ∧
      (lookup_postcode g n).calls = k + 1 ∧
      (lookup_postcode g n).sleeps.length = k ∧
      (k = 0 → (lookup_postcode g n).sleeps = [])) := by
  intro k n hk
  constructor
  · intro t rS rE hall r ht hr
    obtain ⟨h1, h2, h3⟩ := checkUrlGo_success_after t rS rE k 1 n hk hall r ht hr
    refine ⟨h1, h2, h3, ?_⟩
    rintro rfl
    exact List.eq_nil_of_length_eq_zero h3
  · intro g hall l pc hg hpc
    obtain ⟨h1, h2, h3⟩ := lookupGo_success_after g k 1 n hk hall l pc hg hpc
    refine ⟨h1, h2, h3, ?_⟩
    rintro rfl
    exact List.eq_nil_of_length_eq_zero h3

/-- Witness for C4 with k = 1, max_attempts = 3: one 503 answer then a
clean 200, and one timeout then a postcode hit. -/
theorem success_after_exactly_k_retries_witness :
    ((check_url (fun i => if i ≤ 1 then Except.ok ⟨503, ""⟩ else Except.ok ⟨200, "fine"⟩)
        (fun _ => 7) (fun _ => 3) 3).result = Except.ok (some 200, "OK") ∧
      (check_url (fun i => if i ≤ 1 then Except.ok ⟨503, ""⟩ else Except.ok ⟨200, "fine"⟩)
        (fun _ => 7) (fun _ => 3) 3).calls = 2 ∧
      (check_url (fun i => if i ≤ 1 then Except.ok ⟨503, ""⟩ else Except.ok ⟨200, "fine"⟩)
        (fun _ => 7) (fun _ => 3) 3).sleeps.length = 1 ∧
      (1 = 0 → (check_url (fun i => if i ≤ 1 then Except.ok ⟨503, ""⟩ else Except.ok ⟨200, "fine"⟩)
        (fun _ => 7) (fun _ => 3) 3).sleeps = [])) ∧
    ((lookup_postcode (fun i => if i ≤ 1 then Except.error PyExn.geocoderTimedOut
        else Except.ok (some ⟨some [("postcode", "90210")]⟩)) 3).result = Except.ok "90210" ∧
      (lookup_postcode (fun i => if i ≤ 1 then Except.error PyExn.geocoderTimedOut
        else Except.ok (some ⟨some [("postcode", "90210")]⟩)) 3).calls = 2 ∧
      (lookup_postcode (fun i => if i ≤ 1 then Except.error PyExn.geocoderTimedOut
        else Except.ok (some ⟨some [("postcode", "90210")]⟩)) 3).sleeps.length = 1 ∧
      (1 = 0 → (lookup_postcode (fun i => if i ≤ 1 then Except.error PyExn.geocoderTimedOut
        else Except.ok (some ⟨some [("postcode", "90210")]⟩)) 3).sleeps = [])) := by
  have h := success_after_exactly_k_retries 1 3 (by decide)
  refine ⟨?_, ?_⟩
  · have := h.1 (fun i => if i ≤ 1 then Except.ok ⟨503, ""⟩ else Except.ok ⟨200, "fine"⟩)
      (fun _ => 7) (fun _ => 3)
      (fun i hi => by have h0 : i = 0 := by omega
                      subst h0; rfl) ⟨200, "fine"⟩ rfl (by decide)
    simpa using this
  · have := h.2 (fun i => if i ≤ 1 then Except.error PyExn.geocoderTimedOut
        else Except.ok (some ⟨some [("postcode", "90210")]⟩))
      (fun i hi => by have h0 : i = 0 := by omega
                      subst h0; rfl)
      ⟨some [("postcode", "90210")]⟩ "90210" rfl (by decide)
    simpa using this

end Scripts
namespace Scripts

/-- C5: at any attempt, `check_url` classifies a completed response as
retryable exactly when its status is 429 or 503 or its body contains
"captcha" case-insensitively, and classifies any raised transport
exception as retryable; every other completed response terminates the
loop at once with Success carrying that status code. -/
theorem retryable_attempt_classification :
    ∀ (t : Nat → Except PyExn HttpResponse) (rS rE : Nat → ℚ) (a fuel : Nat),
    (∀ r, t a = Except.ok r → r.status_code ≠ 429 → r.status_code ≠ 503 →
      hasCaptcha r.text = false →
      checkUrlGo t rS rE a (fuel + 1) =
        ⟨Except.ok (some r.status_code, (RESPONSE_CODES r.status_code).getD "Unknown"), 1, []⟩) ∧
    (∀ r, t a = Except.ok r →
      (r.status_code = 429 ∨ r.status_code = 503 ∨ hasCaptcha r.text = true) →
      checkUrlGo t rS rE a (fuel + 1) =
        ⟨(checkUrlGo t rS rE (a + 1) fuel).result, (checkUrlGo t rS rE (a + 1) fuel).calls + 1,
          rS a :: (checkUrlGo t rS rE (a + 1) fuel).sleeps⟩) ∧
    (∀ e, t a = Except.error e →
      checkUrlGo t rS rE a (fuel + 1) =
        ⟨(checkUrlGo t rS rE (a + 1) fuel).result, (checkUrlGo t rS rE (a + 1) fuel).calls + 1,
          rE a :: (checkUrlGo t rS rE (a + 1) fuel).sleeps⟩) := by
  intro t rS rE a fuel
  refine ⟨?_, ?_, ?_⟩
  · intro r ht h1 h2 h3
    have hr : isRetrySignal r = false := by
      simp only [isRetrySignal, Bool.or_eq_false_iff, beq_eq_false_iff_ne, ne_eq]
      exact ⟨⟨h1, h2⟩, h3⟩
    exact checkUrlGo_success_step t rS rE a fuel r ht hr
  · intro r ht hsig
    have hr : isRetrySignal r = true := by
      rcases hsig with h | h | h <;> simp [isRetrySignal, h]
    rw [checkUrlGo_succ, ht]
    simp [hr]
  · intro e ht
    rw [checkUrlGo_succ, ht]
    simp [isCaughtByCheck]

/-- Witness for C5: a 404 with a clean body terminates at once with
Success(404); a 200 whose body contains "CaPtChA" retries; a raised
exception retries. -/
theorem retryable_attempt_classification_witness :
    (checkUrlGo (fun _ => Except.ok ⟨404, "missing"⟩) (fun _ => 7) (fun _ => 3) 1 (2 + 1) =
      ⟨Except.ok (some 404, "Not Found"), 1, []⟩) ∧
    (checkUrlGo (fun _ => Except.ok ⟨200, "a CaPtChA page"⟩) (fun _ => 7) (fun _ => 3) 1 (2 + 1) =
      ⟨(checkUrlGo (fun _ => Except.ok ⟨200, "a CaPtChA page"⟩) (fun _ => 7) (fun _ => 3) 2 2).result,
        (checkUrlGo (fun _ => Except.ok ⟨200, "a CaPtChA page"⟩) (fun _ => 7) (fun _ => 3) 2 2).calls + 1,
        7 :: (checkUrlGo (fun _ => Except.ok ⟨200, "a CaPtChA page"⟩) (fun _ => 7) (fun _ => 3) 2 2).sleeps⟩) ∧
    (checkUrlGo (fun _ => Except.error PyExn.requestException) (fun _ => 7) (fun _ => 3) 1 (2 + 1) =
      ⟨(checkUrlGo (fun _ => Except.error PyExn.requestException) (fun _ => 7) (fun _ => 3) 2 2).result,
        (checkUrlGo (fun _ => Except.error PyExn.requestException) (fun _ => 7) (fun _ => 3) 2 2).calls + 1,
        3 :: (checkUrlGo (fun _ => Except.error PyExn.requestException) (fun _ => 7) (fun _ => 3) 2 2).sleeps⟩) :=
  ⟨((retryable_attempt_classification (fun _ => Except.ok ⟨404, "missing"⟩)
      (fun _ => 7) (fun _ => 3) 1 2).1 ⟨404, "missing"⟩ rfl (by decide) (by decide) (by decide)),
   ((retryable_attempt_classification (fun _ => Except.ok ⟨200, "a CaPtChA page"⟩)
      (fun _ => 7) (fun _ => 3) 1 2).2.1 ⟨200, "a CaPtChA page"⟩ rfl (Or.inr (Or.inr (by decide)))),
   ((retryable_attempt_classification (fun _ => Except.error PyExn.requestException)
      (fun _ => 7) (fun _ => 3) 1 2).2.2 PyExn.requestException rfl)⟩

/-- C8: whenever `check_url` surfaces an integer status code as Success,
that code came from an actual attempt whose response was not a retry
signal: the code is neither 429 nor 503 and the response body did not
contain "captcha" case-insensitively. -/
theorem success_code_never_retry_signal :
    ∀ (t : Nat → Except PyExn HttpResponse) (rS rE : Nat → ℚ) (n c : Nat) (s : String),
    (check_url t rS rE n).result = Except.ok (some c, s) →
    c ≠ 429 ∧ c ≠ 503 ∧
    ∃ j r, j < n ∧ t (1 + j) = Except.ok r ∧ r.status_code = c ∧ hasCaptcha r.text = false := by
  intro t rS rE n c s h
  obtain ⟨j, r, hj, ht, hc, hrs⟩ := checkUrlGo_success_origin t rS rE n 1 c s h
  have hparts : (r.status_code ≠ 429 ∧ r.status_code ≠ 503) ∧ hasCaptcha r.text = false := by
    simpa only [isRetrySignal, Bool.or_eq_false_iff, beq_eq_false_iff_ne, ne_eq] using hrs
  subst hc
  exact ⟨hparts.1.1, hparts.1.2, j, r, hj, ht, rfl, hparts.2⟩

/-- Witness for C8: a transport answering 200 "all good" gives
Success(200) and the origin response carries no retry signal. -/
theorem success_code_never_retry_signal_witness :
    200 ≠ 429 ∧ 200 ≠ 503 ∧
    ∃ j r, j < 3 ∧ (fun (_ : Nat) => Except.ok (ε := PyExn) (⟨200, "all good"⟩ : HttpResponse)) (1 + j) =
      Except.ok r ∧ r.status_code = 200 ∧ hasCaptcha r.text = false :=
  success_code_never_retry_signal (fun _ => Except.ok ⟨200, "all good"⟩)
    (fun _ => 7) (fun _ => 3) 3 200 "OK" rfl

end Scripts
namespace Scripts

/-- The exponential-capped backoff value slept after attempt `n` in
`lookup_postcode`: `min(20, 2 ** attempt)`. -/
def expBackoff (n : Nat) : Nat :=
  min 20 (2 ^ n)

theorem expBackoff_mono {m n : Nat} (h : m ≤ n) : expBackoff m ≤ expBackoff n :=
  min_le_min (le_refl 20) (Nat.pow_le_pow_right (by omega) h)

theorem lookup_sleeps_get? (g : Nat → Except PyExn (Option GeoLocation))
    (n i : Nat) (x : Nat) (hx : (lookup_postcode g n).sleeps.get? i = some x) :
    x = min 20 (2 ^ (i + 1)) := by
  obtain ⟨j, hj⟩ := lookupGo_sleeps_spec g n 1
  rw [show (lookup_postcode g n).sleeps = (lookupGo g 1 n).sleeps from rfl, hj] at hx
  have hi : i < j := by
    have := List.get?_eq_some.mp hx
    simpa using this.1
  rw [List.get?_map, List.get?_range hi] at hx
  have : min 20 (2 ^ (1 + i)) = x := Option.some.inj hx
  rw [← this, Nat.add_comm 1 i]

theorem lookup_sleeps_shape (g : Nat → Except PyExn (Option GeoLocation)) (n : Nat) :
    List.Chain' (fun x y => x ≤ y) (lookup_postcode g n).sleeps ∧
    ∀ x ∈ (lookup_postcode g n).sleeps, x ≤ 20 := by
  obtain ⟨j, hj⟩ := lookupGo_sleeps_spec g n 1
  rw [show (lookup_postcode g n).sleeps = (lookupGo g 1 n).sleeps from rfl, hj]
  constructor
  · refine List.Pairwise.chain' ?_
    refine List.Pairwise.map _ (fun a b hab => ?_) (List.pairwise_lt_range j)
    exact expBackoff_mono (by omega)
  · intro x hx
    obtain ⟨i, -, rfl⟩ := List.mem_map.mp hx
    exact min_le_left _ _

/-- C6: within one lookup the backoff delays never exceed the 20-second
cap: in `lookup_postcode` the i-th sleep (after attempt i + 1) is exactly
`min(20, 2 ** (i + 1))`, so the sequence is non-decreasing; in `check_url`
every sleep is a `random.uniform(5, 10)` or `random.uniform(2, 4)` draw
and hence stays within the configured 1–20 second bounds. -/
theorem backoff_nondecreasing_and_capped :
    (∀ (g : Nat → Except PyExn (Option GeoLocation)) (n i : Nat) (x : Nat),
      (lookup_postcode g n).sleeps.get? i = some x → x = min 20 (2 ^ (i + 1))) ∧
    (∀ (g : Nat → Except PyExn (Option GeoLocation)) (n : Nat),
      List.Chain' (fun x y => x ≤ y) (lookup_postcode g n).sleeps ∧
      ∀ x ∈ (lookup_postcode g n).sleeps, x ≤ 20) ∧
    (∀ (t : Nat → Except PyExn HttpResponse) (rS rE : Nat → ℚ) (n : Nat),
      (∀ i, 5 ≤ rS i ∧ rS i ≤ 10) → (∀ i, 2 ≤ rE i ∧ rE i ≤ 4) →
      ∀ x ∈ (check_url t rS rE n).sleeps, 1 ≤ x ∧ x ≤ 20) := by
  refine ⟨lookup_sleeps_get?, lookup_sleeps_shape, ?_⟩
  intro t rS rE n hS hE x hx
  rcases checkUrlGo_sleeps_mem t rS rE n 1 x hx with ⟨i, rfl⟩ | ⟨i, rfl⟩
  · obtain ⟨h1, h2⟩ := hS i
    constructor <;> linarith
  · obtain ⟨h1, h2⟩ := hE i
    constructor <;> linarith

/-- Witness for C6: with an always-timing-out geocoder and 3 attempts the
second sleep is min(20, 4) = 4, the sleep list is non-decreasing and
capped; with constant uniform draws 7 and 3, every `check_url` sleep is
within 1–20. -/
theorem backoff_nondecreasing_and_capped_witness :
    ((4 : Nat) = min 20 (2 ^ (1 + 1))) ∧
    (List.Chain' (fun x y => x ≤ y)
        (lookup_postcode (fun _ => Except.error PyExn.geocoderTimedOut) 3).sleeps ∧
      ∀ x ∈ (lookup_postcode (fun _ => Except.error PyExn.geocoderTimedOut) 3).sleeps, x ≤ 20) ∧
    (∀ x ∈ (check_url (fun _ => Except.ok ⟨503, ""⟩) (fun _ => 7) (fun _ => 3) 3).sleeps,
      (1 : ℚ) ≤ x ∧ x ≤ 20) :=
  ⟨backoff_nondecreasing_and_capped.1 (fun _ => Except.error PyExn.geocoderTimedOut) 3 1 4 rfl,
   backoff_nondecreasing_and_capped.2.1 (fun _ => Except.error PyExn.geocoderTimedOut) 3,
   backoff_nondecreasing_and_capped.2.2 (fun _ => Except.ok ⟨503, ""⟩) (fun _ => 7) (fun _ => 3) 3
     (fun _ => by norm_num) (fun _ => by norm_num)⟩

end Scripts
namespace Scripts

/-- C9: in the zip-fill pass, a row whose zip cell is not blank (its value
truthy and not whitespace-only under the loop's own guard) is skipped:
no geocode lookup runs for it, its zip value is unchanged, and it is not
highlighted; conversely any row the pass writes, highlights, or geocodes
had a blank zip cell. -/
theorem nonblank_zip_rows_untouched :
    (∀ (lk : CellValue → String) (rows : List SheetRowIn) (i : Nat) (r : SheetRowIn),
      rows.get? i = some r → isBlankZip r.zipVal = false →
      (fillLoop lk rows).get? i = some ⟨r.zipVal, false, false⟩) ∧
    (∀ (lk : CellValue → String) (r : SheetRowIn),
      ((fillRow lk r).zipVal ≠ r.zipVal ∨ (fillRow lk r).highlighted = true ∨
        (fillRow lk r).lookedUp = true) →
      isBlankZip r.zipVal = true) := by
  constructor
  · intro lk rows i r hi hblank
    rw [fillLoop, List.get?_map, hi]
    simp [fillRow, hblank]
  · intro lk r h
    by_contra hb
    have hb' : isBlankZip r.zipVal = false := by
      cases hq : isBlankZip r.zipVal
      · rfl
      · exact absurd hq hb
    rw [fillRow, hb'] at h
    simp at h
/-- Witness for C9: a sheet whose first row already holds zip "12345" and
whose second row's zip is empty; the pass leaves row 0 untouched, and the
written-and-highlighted row 1 indeed had a blank zip cell. -/
theorem nonblank_zip_rows_untouched_witness :
    (fillLoop (fun _ => "99999")
        [⟨CellValue.vStr "12345", CellValue.vStr "a st"⟩,
         ⟨CellValue.vNone, CellValue.vStr "b st"⟩]).get? 0 =
      some ⟨CellValue.vStr "12345", false, false⟩ ∧
    isBlankZip CellValue.vNone = true :=
  ⟨nonblank_zip_rows_untouched.1 (fun _ => "99999")
      [⟨CellValue.vStr "12345", CellValue.vStr "a st"⟩,
       ⟨CellValue.vNone, CellValue.vStr "b st"⟩]
      0 ⟨CellValue.vStr "12345", CellValue.vStr "a st"⟩ rfl (by decide),
   nonblank_zip_rows_untouched.2 (fun _ => "99999")
      ⟨CellValue.vNone, CellValue.vStr "b st"⟩ (Or.inl (by decide))⟩

end Scripts
namespace Scripts

/-- Counterexample to C1: a geocoder raising an exception outside
`(GeocoderTimedOut, GeocoderUnavailable, RequestException)` — here a
generic error — propagates out of `lookup_postcode` on the first attempt
instead of being absorbed into a terminal outcome. -/
theorem unexpected_exception_escapes_lookup :
    (lookup_postcode (fun _ => Except.error (PyExn.otherError "boom")) 3).result =
      Except.error (PyExn.otherError "boom") :=
  rfl

/-- C1 as amended: `check_url` catches every exception (`except
Exception`) and always hands the caller a terminal outcome; the same holds
for `lookup_postcode` only when the transport raises nothing outside the
three caught exception types — an unexpected exception propagates (see the
counterexample). -/
theorem lookup_terminal_outcome_boundary :
    (∀ (t : Nat → Except PyExn HttpResponse) (rS rE : Nat → ℚ) (n : Nat),
      ∃ v, (check_url t rS rE n).result = Except.ok v) ∧
    (∀ (g : Nat → Except PyExn (Option GeoLocation)) (n : Nat),
      (∀ i e, g i = Except.error e → isCaughtByLookup e = true) →
      ∃ s, (lookup_postcode g n).result = Except.ok s) := by
  constructor
  · intro t rS rE n
    exact checkUrlGo_result_ok t rS rE n 1
  · intro g n h
    exact lookupGo_ok_of_caught g h n 1

/-- Witness for the amended C1: a transport raising a generic exception is
still absorbed by `check_url`, and a geocoder raising only timeouts is
absorbed by `lookup_postcode`. -/
theorem lookup_terminal_outcome_boundary_witness :
    (∃ v, (check_url (fun _ => Except.error (PyExn.otherError "boom"))
        (fun _ => 7) (fun _ => 3) 3).result = Except.ok v) ∧
    (∃ s, (lookup_postcode (fun _ => Except.error PyExn.geocoderTimedOut) 3).result =
      Except.ok s) :=
  ⟨lookup_terminal_outcome_boundary.1 (fun _ => Except.error (PyExn.otherError "boom"))
      (fun _ => 7) (fun _ => 3) 3,
   lookup_terminal_outcome_boundary.2 (fun _ => Except.error PyExn.geocoderTimedOut) 3
      (fun i e he => by
        injection he with h
        rw [← h]
        rfl)⟩

/-- Counterexample to C2: when the geocoder times out on all 3 attempts,
`lookup_postcode` returns `""` — the very same value as the no-data
(Empty) case — not a distinguishable Failed outcome. -/
theorem lookup_failed_equals_empty_value :
    (lookup_postcode (fun _ => Except.error PyExn.geocoderTimedOut) 3).result =
        Except.ok "" ∧
    (lookup_postcode (fun _ => Except.ok none) 3).result = Except.ok "" :=
  ⟨rfl, rfl⟩

/-- C2 as amended: `check_url`'s exhaustion outcome
`(None, "Failed after retries")` is distinguishable from every Success
(which carries an integer code); `lookup_postcode`, however, returns `""`
both after exhausting retries and when a completed call yields no data,
so its caller cannot tell Failed from Empty by the returned value. -/
theorem failed_outcome_distinguishability :
    (∀ (t : Nat → Except PyExn HttpResponse) (rS rE : Nat → ℚ) (n : Nat),
      (∀ i, retryAttempt t i = true) →
      (check_url t rS rE n).result = Except.ok (none, "Failed after retries")) ∧
    (∀ (g : Nat → Except PyExn (Option GeoLocation)) (n : Nat),
      (∀ i, retryGeo g i = true) → (lookup_postcode g n).result = Except.ok "") ∧
    (∀ (g : Nat → Except PyExn (Option GeoLocation)) (n : Nat), 0 < n →
      g 1 = Except.ok none → (lookup_postcode g n).result = Except.ok "") := by
  refine ⟨?_, ?_, ?_⟩
  · intro t rS rE n h
    exact (checkUrlGo_allRetry t rS rE h 1 n).1
  · intro g n h
    exact (lookupGo_allRetry g h n 1).1
  · intro g n hn hg
    obtain ⟨m, rfl⟩ : ∃ m, n = m + 1 := ⟨n - 1, by omega⟩
    rw [show (lookup_postcode g (m + 1)).result = (lookupGo g 1 (m + 1)).result from rfl,
      lookupGo_terminal_step g 1 m none hg]
    rfl

/-- Witness for the amended C2 at concrete inputs: exhaustion gives
`(None, "Failed after retries")` for `check_url` and `""` for
`lookup_postcode`; a no-data geocode also gives `""`. -/
theorem failed_outcome_distinguishability_witness :
    (check_url (fun _ => Except.ok ⟨429, ""⟩) (fun _ => 7) (fun _ => 3) 3).result =
        Except.ok (none, "Failed after retries") ∧
    (lookup_postcode (fun _ => Except.error PyExn.geocoderUnavailable) 3).result =
        Except.ok "" ∧
    (lookup_postcode (fun _ => Except.ok none) 3).result = Except.ok "" :=
  ⟨failed_outcome_distinguishability.1 (fun _ => Except.ok ⟨429, ""⟩)
      (fun _ => 7) (fun _ => 3) 3 (fun _ => rfl),
   failed_outcome_distinguishability.2.1 (fun _ => Except.error PyExn.geocoderUnavailable) 3
      (fun _ => rfl),
   failed_outcome_distinguishability.2.2 (fun _ => Except.ok none) 3 (by decide) rfl⟩

end Scripts
